import Mathlib

/-
Shallow embedding of the learn-wgpu surface-lifecycle program
(src/src/lib.rs, src/src/main.rs).

The program keeps a `State` aggregate { surface, device, queue, config, size },
configures the presentation surface at startup and on resize, and runs a
winit event loop that renders a fixed clear color each redraw tick.

Modelling choices:
  - GPU/platform handles (surface, device, queue) are opaque tokens (Nat).
  - Interactions with the wgpu backend are recorded as an event trace
    (`BackendEvent`): surface configuration, encoder/render-pass recording,
    queue submission, presentation.
  - The outcome of `surface.get_current_texture()` is an input to `render`
    (the backend decides it), exactly mirroring the `?` early return.
  - Texture formats are opaque tokens; the adapter's supported-format list
    is an input to `State::new`. Indexing `[0]` into an empty list panics
    in Rust, so `State.new` returns an `Option`.
  - The clear color literals 0.1/0.2/0.3/1.0 are represented exactly as
    rationals; no arithmetic is ever performed on them.
-/

namespace LearnWgpu

/-- winit physical window size in pixels (`winit::dpi::PhysicalSize<u32>`). -/
structure PhysicalSize where
  width : Nat
  height : Nat
deriving DecidableEq, Repr

/-- wgpu texture formats, kept opaque: the program only moves them around. -/
abbrev TextureFormat := Nat

/-- wgpu texture usage flags; the program only ever uses RENDER_ATTACHMENT. -/
inductive TextureUsages where
  | RENDER_ATTACHMENT
deriving DecidableEq, Repr

/-- wgpu presentation modes; the program only ever uses Fifo (vsync). -/
inductive PresentMode where
  | Fifo
  | otherMode
deriving DecidableEq, Repr

/-- wgpu SurfaceConfiguration, fields in source order. -/
structure SurfaceConfiguration where
  usage : TextureUsages
  format : TextureFormat
  width : Nat
  height : Nat
  present_mode : PresentMode
deriving DecidableEq, Repr

/-- wgpu Color with rational components standing for the f64 literals. -/
structure Color where
  r : ℚ
  g : ℚ
  b : ℚ
  a : ℚ
deriving DecidableEq, Repr

/-- wgpu LoadOp for a color attachment. -/
inductive LoadOp where
  | Clear (color : Color)
  | Load
deriving DecidableEq, Repr

/-- wgpu Operations: load op and whether the result is stored. -/
structure Operations where
  load : LoadOp
  store : Bool
deriving DecidableEq, Repr

/-- One color attachment of a render pass. `view_is_acquired_target` records
that the attachment view is the view of the texture acquired this frame. -/
structure RenderPassColorAttachment where
  view_is_acquired_target : Bool
  resolve_target : Option Unit
  ops : Operations
deriving DecidableEq, Repr

/-- wgpu RenderPassDescriptor as used by the program. -/
structure RenderPassDescriptor where
  label : Option String
  color_attachments : List (Option RenderPassColorAttachment)
  depth_stencil_attachment : Option Unit
deriving DecidableEq, Repr

/-- wgpu SurfaceError variants. -/
inductive SurfaceError where
  | Timeout
  | Outdated
  | Lost
  | OutOfMemory
deriving DecidableEq, Repr

/-- Observable interactions with the wgpu backend and the window, in order. -/
inductive BackendEvent where
  | configure (config : SurfaceConfiguration)
  | createView
  | createCommandEncoder (label : Option String)
  | beginRenderPass (desc : RenderPassDescriptor)
  | finishEncoder
  | submit (numBuffers : Nat)
  | present
  | requestRedraw
  | logError (e : SurfaceError)
deriving DecidableEq, Repr

/-- The State aggregate of lib.rs: handles plus surface config and size. -/
structure State where
  surface : Nat
  device : Nat
  queue : Nat
  config : SurfaceConfiguration
  size : PhysicalSize
deriving DecidableEq, Repr

/-- Label string passed to create_command_encoder. -/
def renderEncoderLabel : String := "Render Encoder"

/-- Label string passed to begin_render_pass. -/
def renderPassLabel : String := "Render Pass"

/-- The fixed clear color recorded by render: r 0.1, g 0.2, b 0.3, a 1.0. -/
def clearColor : Color := { r := 1/10, g := 2/10, b := 3/10, a := 1 }

/-- State::new (lib.rs lines 127-225): builds the SurfaceConfiguration from
the window's inner size and the first adapter-supported format, configures
the surface once, and returns the State. Returns none when the adapter
reports no supported format (the Rust indexing `[0]` would panic). -/
def State.new (windowSize : PhysicalSize) (supportedFormats : List TextureFormat)
    (surfaceHandle deviceHandle queueHandle : Nat) :
    Option (State × List BackendEvent) :=
  match supportedFormats with
  | [] => none
  | f :: _ =>
    let config : SurfaceConfiguration :=
      { usage := .RENDER_ATTACHMENT
        format := f
        width := windowSize.width
        height := windowSize.height
        present_mode := .Fifo }
    some ({ surface := surfaceHandle
            device := deviceHandle
            queue := queueHandle
            config := config
            size := windowSize },
          [.configure config])

/-- State::resize (lib.rs lines 228-235): when both dimensions are positive,
stores the new size, updates config width/height, and reconfigures the
surface; otherwise does nothing. Returns the new state and backend trace. -/
def State.resize (s : State) (new_size : PhysicalSize) :
    State × List BackendEvent :=
  if 0 < new_size.width ∧ 0 < new_size.height then
    let config : SurfaceConfiguration :=
      { s.config with width := new_size.width, height := new_size.height }
    ({ s with size := new_size, config := config }, [.configure config])
  else
    (s, [])

/-- winit ElementState. -/
inductive ElementState where
  | Pressed
  | Released
deriving DecidableEq, Repr

/-- winit VirtualKeyCode; only Escape is distinguished by the program. -/
inductive VirtualKeyCode where
  | Escape
  | otherKey
deriving DecidableEq, Repr

/-- winit KeyboardInput payload, fields the program matches on. -/
structure KeyboardInput where
  state : ElementState
  virtual_keycode : Option VirtualKeyCode
deriving DecidableEq, Repr

/-- winit WindowEvent variants the program distinguishes. -/
inductive WindowEvent where
  | CloseRequested
  | Keyboard (input : KeyboardInput)
  | Resized (physical_size : PhysicalSize)
  | ScaleFactorChanged (new_inner_size : PhysicalSize)
  | otherWindowEvent
deriving DecidableEq, Repr

/-- State::input (lib.rs lines 241-243): consumes nothing, returns false. -/
def State.input (s : State) (_event : WindowEvent) : State × Bool :=
  (s, false)

/-- State::update (lib.rs lines 245-247): a no-op placeholder. -/
def State.update (s : State) : State :=
  s

/-- The render-pass descriptor recorded by render (lib.rs lines 270-286). -/
def clearPassDescriptor : RenderPassDescriptor :=
  { label := some renderPassLabel
    color_attachments :=
      [some { view_is_acquired_target := true
              resolve_target := none
              ops := { load := .Clear clearColor, store := true } }]
    depth_stencil_attachment := none }

/-- State::render (lib.rs lines 249-294). The backend's answer to
get_current_texture is the `acquire` input; an error propagates out via `?`
with no further backend interaction. On success the program creates a view,
records a single clear pass into one encoder, submits the one finished
command buffer, presents, and returns Ok. No State field is assigned. -/
def State.render (s : State) (acquire : Except SurfaceError Unit) :
    State × Except SurfaceError Unit × List BackendEvent :=
  match acquire with
  | .error e => (s, .error e, [])
  | .ok _ =>
    (s, .ok (),
     [.createView,
      .createCommandEncoder (some renderEncoderLabel),
      .beginRenderPass clearPassDescriptor,
      .finishEncoder,
      .submit 1,
      .present])

/-- winit ControlFlow as the program uses it. -/
inductive ControlFlow where
  | Poll
  | Exit
deriving DecidableEq, Repr

/-- Events delivered by the winit event loop; the Bool records whether the
event's window id equals this window's id, and a RedrawRequested event
carries the backend's acquire outcome for the frame it triggers. -/
inductive Event where
  | WindowEvent (sameWindow : Bool) (event : WindowEvent)
  | RedrawRequested (sameWindow : Bool) (acquire : Except SurfaceError Unit)
  | MainEventsCleared
  | otherEvent

/-- The event-loop closure of run (lib.rs lines 43-92): one event's handling.
Returns the updated state, the control flow after the event, and the trace. -/
def handleEvent (s : State) (control_flow : ControlFlow) (event : Event) :
    State × ControlFlow × List BackendEvent :=
  match event with
  | .WindowEvent true e =>
    match s.input e with
    | (s, true) => (s, control_flow, [])
    | (s, false) =>
      match e with
      | .CloseRequested => (s, .Exit, [])
      | .Keyboard { state := .Pressed, virtual_keycode := some .Escape } =>
        (s, .Exit, [])
      | .Resized physical_size =>
        match s.resize physical_size with
        | (s, tr) => (s, control_flow, tr)
      | .ScaleFactorChanged new_inner_size =>
        match s.resize new_inner_size with
        | (s, tr) => (s, control_flow, tr)
      | _ => (s, control_flow, [])
  | .RedrawRequested true acquire =>
    match (s.update).render acquire with
    | (s, .ok _, tr) => (s, control_flow, tr)
    | (s, .error .Lost, tr) =>
      match s.resize s.size with
      | (s, tr2) => (s, control_flow, tr ++ tr2)
    | (s, .error .OutOfMemory, tr) => (s, .Exit, tr)
    | (s, .error e, tr) => (s, control_flow, tr ++ [.logError e])
  | .MainEventsCleared => (s, control_flow, [.requestRedraw])
  | _ => (s, control_flow, [])

/-- The event loop: events are handled one at a time; once control flow is
Exit the loop stops and no further event is handled. -/
def runLoop (s : State) (control_flow : ControlFlow) :
    List Event → State × ControlFlow × List BackendEvent
  | [] => (s, control_flow, [])
  | e :: es =>
    match control_flow with
    | .Exit => (s, .Exit, [])
    | .Poll =>
      match handleEvent s control_flow e with
      | (s1, cf1, tr) =>
        match runLoop s1 cf1 es with
        | (s2, cf2, tr2) => (s2, cf2, tr ++ tr2)

/-- Every `configure` event in a trace carries positive width and height. -/
def tracesNonzeroConfig (tr : List BackendEvent) : Bool :=
  tr.all fun e =>
    match e with
    | .configure config => decide (0 < config.width) && decide (0 < config.height)
    | _ => true

/-- Fold a sequence of resize calls over a state, discarding the traces. -/
def applyResizes (s : State) : List PhysicalSize → State
  | [] => s
  | sz :: rest => applyResizes (s.resize sz).1 rest

/-- The last element of the list with both dimensions positive, if any. -/
def lastNonzero : List PhysicalSize → Option PhysicalSize
  | [] => none
  | sz :: rest =>
    match lastNonzero rest with
    | some sz2 => some sz2
    | none => if 0 < sz.width ∧ 0 < sz.height then some sz else none

/-- The invariant relating the stored size to the active configuration. -/
def sizeMatchesConfig (s : State) : Prop :=
  s.config.width = s.size.width ∧ s.config.height = s.size.height

/-- A window event carrying an escape key press, as matched by run. -/
def escapeEvent : Event :=
  .WindowEvent true (.Keyboard { state := .Pressed, virtual_keycode := some .Escape })

/-- A close-request window event, as matched by run. -/
def closeEvent : Event :=
  .WindowEvent true .CloseRequested

/-- A concrete state used to instantiate hypothesis-bearing theorems. -/
def sampleState : State :=
  { surface := 1
    device := 2
    queue := 3
    config := { usage := .RENDER_ATTACHMENT, format := 7, width := 800, height := 600,
                present_mode := .Fifo }
    size := ⟨800, 600⟩ }

/-- C3: for every width w and height h, calling resize with new size (0, h)
or with new size (w, 0) leaves the State — its SurfaceConfig and the stored
last-known size — completely unchanged and submits nothing to the backend. -/
theorem resize_zero_noop (s : State) (w h : Nat) :
    s.resize ⟨0, h⟩ = (s, []) ∧ s.resize ⟨w, 0⟩ = (s, []) := by
  constructor <;> · unfold State.resize; simp

/-- C5: when Acquire returns OutOfMemory, the event-loop handling of that
redraw sets control flow to Exit and the frame's backend trace is empty, so
neither a command encoder is opened (Record) nor a present occurs. -/
theorem out_of_memory_exits (s : State) (control_flow : ControlFlow) :
    (handleEvent s control_flow (.RedrawRequested true (.error .OutOfMemory))).2.1 =
      ControlFlow.Exit ∧
    (handleEvent s control_flow (.RedrawRequested true (.error .OutOfMemory))).2.2 = [] := by
  exact ⟨rfl, rfl⟩

/-- C6: the SurfaceConfig built by State::new has the first adapter-supported
format, RENDER_ATTACHMENT usage, Fifo present mode, and the window's size. -/
theorem new_config_fields (windowSize : PhysicalSize) (f : TextureFormat)
    (rest : List TextureFormat) (sh dh qh : Nat) :
    (State.new windowSize (f :: rest) sh dh qh).map (fun p => p.1.config) =
      some { usage := .RENDER_ATTACHMENT, format := f, width := windowSize.width,
             height := windowSize.height, present_mode := .Fifo } := by
  exact rfl

/-- C7: a render call whose Acquire succeeds produces exactly this trace:
one view creation, one encoder, one render pass clearing the acquired target
to the fixed color with store enabled and no depth/stencil attachment, one
finish, one submission of that single command buffer, then one present; and
the call returns Ok. The submit and present counts are stated explicitly. -/
theorem render_success_protocol (s : State) :
    s.render (.ok ()) =
      (s, .ok (),
       [.createView,
        .createCommandEncoder (some renderEncoderLabel),
        .beginRenderPass
          { label := some renderPassLabel
            color_attachments :=
              [some { view_is_acquired_target := true
                      resolve_target := none
                      ops := { load := .Clear { r := 1/10, g := 2/10, b := 3/10, a := 1 },
                               store := true } }]
            depth_stencil_attachment := none },
        .finishEncoder,
        .submit 1,
        .present]) ∧
    ((s.render (.ok ())).2.2.countP fun e =>
      match e with | .submit _ => true | _ => false) = 1 ∧
    (s.render (.ok ())).2.2.count .present = 1 := by
  refine ⟨rfl, rfl, ?_⟩
  rfl

/-- C10: render leaves every field of State unchanged for every acquire
outcome — Ok, Lost, OutOfMemory, Outdated, and Timeout alike; only the
per-frame trace differs. -/
theorem render_preserves_state (s : State) (acquire : Except SurfaceError Unit) :
    (s.render acquire).1 = s := by
  cases acquire <;> rfl

/-- C1 counterexample: State::new copies the window's inner size into the
configuration with no zero check, so a window whose inner width is 0 makes
the initial configure submit a zero-width configuration to the backend. -/
theorem new_zero_size_configures_zero :
    State.new ⟨0, 600⟩ [7] 0 0 0 =
      some ({ surface := 0, device := 0, queue := 0,
              config := { usage := .RENDER_ATTACHMENT, format := 7, width := 0,
                          height := 600, present_mode := .Fifo },
              size := ⟨0, 600⟩ },
            [.configure { usage := .RENDER_ATTACHMENT, format := 7, width := 0,
                          height := 600, present_mode := .Fifo }]) ∧
    tracesNonzeroConfig
      [.configure { usage := .RENDER_ATTACHMENT, format := 7, width := 0,
                    height := 600, present_mode := .Fifo }] = false := by
  exact ⟨rfl, rfl⟩

/-- C1 as amended: every reconfigure performed by resize submits only
configurations with positive width and height (zero-dimension updates are
skipped), and the initial configure performed by State::new submits a
positive-dimension configuration provided the window's inner size has both
dimensions positive, since it copies that size without a guard. -/
theorem configure_nonzero (s : State) (new_size : PhysicalSize)
    (windowSize : PhysicalSize) (formats : List TextureFormat) (sh dh qh : Nat)
    (hw : 0 < windowSize.width) (hh : 0 < windowSize.height) :
    tracesNonzeroConfig (s.resize new_size).2 = true ∧
    (∀ st tr, State.new windowSize formats sh dh qh = some (st, tr) →
      tracesNonzeroConfig tr = true) := by
  constructor
  · unfold State.resize
    by_cases hc : 0 < new_size.width ∧ 0 < new_size.height
    · rw [if_pos hc]
      simp [tracesNonzeroConfig, hc.1, hc.2]
    · rw [if_neg hc]
      rfl
  · intro st tr hnew
    cases formats with
    | nil => exact absurd hnew (by simp [State.new])
    | cons f rest =>
      simp only [State.new, Option.some.injEq, Prod.mk.injEq] at hnew
      obtain ⟨h1, h2⟩ := hnew
      subst h2
      simp [tracesNonzeroConfig, hw, hh]

/-- Witness for configure_nonzero at a concrete state, size, and formats. -/
theorem configure_nonzero_witness :
    0 < (PhysicalSize.mk 800 600).width ∧ 0 < (PhysicalSize.mk 800 600).height ∧
    (tracesNonzeroConfig (sampleState.resize ⟨1024, 768⟩).2 = true ∧
     (∀ st tr, State.new ⟨800, 600⟩ [7] 0 0 0 = some (st, tr) →
       tracesNonzeroConfig tr = true)) :=
  ⟨by decide, by decide,
   configure_nonzero sampleState ⟨1024, 768⟩ ⟨800, 600⟩ [7] 0 0 0 (by decide) (by decide)⟩

/-- C2: when Acquire returns Lost during a redraw, the handling of that same
redraw performs the recovery resize with the stored last-known size — which,
being non-zero, reconfigures the backend surface to exactly that size — no
present occurs for the frame, and the loop is not told to exit. -/
theorem lost_reconfigures_last_size (s : State) (control_flow : ControlFlow)
    (hw : 0 < s.size.width) (hh : 0 < s.size.height) :
    (handleEvent s control_flow (.RedrawRequested true (.error .Lost))).2.2 =
      [.configure { s.config with width := s.size.width, height := s.size.height }] ∧
    BackendEvent.present ∉
      (handleEvent s control_flow (.RedrawRequested true (.error .Lost))).2.2 ∧
    (handleEvent s control_flow (.RedrawRequested true (.error .Lost))).2.1 =
      control_flow := by
  have hresize : s.resize s.size =
      ({ s with size := s.size,
                config := { s.config with width := s.size.width, height := s.size.height } },
       [.configure { s.config with width := s.size.width, height := s.size.height }]) := by
    unfold State.resize
    rw [if_pos ⟨hw, hh⟩]
  refine ⟨?_, ?_, ?_⟩ <;>
    simp [handleEvent, State.update, State.render, hresize]

/-- Witness for lost_reconfigures_last_size at a concrete state. -/
theorem lost_reconfigures_last_size_witness :
    0 < sampleState.size.width ∧ 0 < sampleState.size.height ∧
    ((handleEvent sampleState .Poll (.RedrawRequested true (.error .Lost))).2.2 =
       [.configure
          { usage := .RENDER_ATTACHMENT, format := 7, width := 800, height := 600,
            present_mode := .Fifo }] ∧
     BackendEvent.present ∉
       (handleEvent sampleState .Poll (.RedrawRequested true (.error .Lost))).2.2 ∧
     (handleEvent sampleState .Poll (.RedrawRequested true (.error .Lost))).2.1 =
       ControlFlow.Poll) :=
  ⟨by decide, by decide,
   lost_reconfigures_last_size sampleState .Poll (by decide) (by decide)⟩

/-- Helper: a resize sequence with no element of positive width and height
leaves the state untouched, since each call hits the guard and no-ops. -/
theorem applyResizes_of_lastNonzero_none :
    ∀ (l : List PhysicalSize) (s : State), lastNonzero l = none → applyResizes s l = s := by
  intro l
  induction l with
  | nil => intro s _; rfl
  | cons sz rest ih =>
    intro s h
    unfold lastNonzero at h
    cases hrest : lastNonzero rest with
    | some sz2 => rw [hrest] at h; exact absurd h (by simp)
    | none =>
      rw [hrest] at h
      by_cases hc : 0 < sz.width ∧ 0 < sz.height
      · rw [if_pos hc] at h; exact absurd h (by simp)
      · have hno : s.resize sz = (s, []) := by
          unfold State.resize; rw [if_neg hc]
        unfold applyResizes
        rw [hno]
        exact ih s hrest

/-- C4: after any finite sequence of resize calls whose last call with both
dimensions positive has size target, the active SurfaceConfig's width and
height equal target's, regardless of zero-dimension calls around it. -/
theorem resizes_settle_on_last_nonzero (s : State) (l : List PhysicalSize)
    (target : PhysicalSize) (h : lastNonzero l = some target) :
    (applyResizes s l).config.width = target.width ∧
    (applyResizes s l).config.height = target.height := by
  induction l generalizing s with
  | nil => exact absurd h (by simp [lastNonzero])
  | cons sz rest ih =>
    unfold lastNonzero at h
    cases hrest : lastNonzero rest with
    | some sz2 =>
      rw [hrest] at h
      have hsz2 : sz2 = target := by injection h
      subst hsz2
      exact ih _ hrest
    | none =>
      rw [hrest] at h
      by_cases hc : 0 < sz.width ∧ 0 < sz.height
      · rw [if_pos hc] at h
        have hsz : sz = target := by injection h
        subst hsz
        unfold applyResizes
        rw [applyResizes_of_lastNonzero_none rest _ hrest]
        unfold State.resize
        rw [if_pos hc]
        exact ⟨rfl, rfl⟩
      · rw [if_neg hc] at h
        exact absurd h (by simp)

/-- Witness for resizes_settle_on_last_nonzero on a concrete sequence with
zero-dimension calls before and after the last non-zero call. -/
theorem resizes_settle_on_last_nonzero_witness :
    lastNonzero [⟨0, 5⟩, ⟨1024, 768⟩, ⟨3, 0⟩, ⟨0, 0⟩] = some ⟨1024, 768⟩ ∧
    ((applyResizes sampleState [⟨0, 5⟩, ⟨1024, 768⟩, ⟨3, 0⟩, ⟨0, 0⟩]).config.width =
       (PhysicalSize.mk 1024 768).width ∧
     (applyResizes sampleState [⟨0, 5⟩, ⟨1024, 768⟩, ⟨3, 0⟩, ⟨0, 0⟩]).config.height =
       (PhysicalSize.mk 1024 768).height) :=
  ⟨by decide,
   resizes_settle_on_last_nonzero sampleState [⟨0, 5⟩, ⟨1024, 768⟩, ⟨3, 0⟩, ⟨0, 0⟩]
     ⟨1024, 768⟩ (by decide)⟩

/-- C8: an escape key press and a close request on this window are handled
identically — the state is untouched, nothing is submitted to the backend,
and control flow becomes Exit — and once Exit is set the loop processes no
further event, so no later render (nor any backend interaction) occurs. -/
theorem exit_on_escape_or_close (s : State) (rest : List Event) :
    handleEvent s .Poll escapeEvent = (s, .Exit, []) ∧
    handleEvent s .Poll closeEvent = (s, .Exit, []) ∧
    runLoop s .Poll (escapeEvent :: rest) = (s, .Exit, []) ∧
    runLoop s .Poll (closeEvent :: rest) = (s, .Exit, []) := by
  refine ⟨rfl, rfl, ?_, ?_⟩ <;> cases rest <;> rfl

/-- C9: the invariant that the stored size equals the config's dimensions is
established by State::new and preserved by resize, input, update, and render
— whichever of the pair changes, the other changes with it. -/
theorem size_config_invariant (s : State) (hs : sizeMatchesConfig s)
    (new_size : PhysicalSize) (e : WindowEvent) (acquire : Except SurfaceError Unit)
    (windowSize : PhysicalSize) (formats : List TextureFormat) (sh dh qh : Nat) :
    (∀ st tr, State.new windowSize formats sh dh qh = some (st, tr) →
      sizeMatchesConfig st) ∧
    sizeMatchesConfig (s.resize new_size).1 ∧
    sizeMatchesConfig (s.input e).1 ∧
    sizeMatchesConfig s.update ∧
    sizeMatchesConfig (s.render acquire).1 := by
  refine ⟨?_, ?_, hs, hs, ?_⟩
  · intro st tr hnew
    cases formats with
    | nil => exact absurd hnew (by simp [State.new])
    | cons f rest =>
      simp only [State.new, Option.some.injEq, Prod.mk.injEq] at hnew
      obtain ⟨h1, h2⟩ := hnew
      subst h1
      exact ⟨rfl, rfl⟩
  · unfold State.resize
    by_cases hc : 0 < new_size.width ∧ 0 < new_size.height
    · rw [if_pos hc]
      exact ⟨rfl, rfl⟩
    · rw [if_neg hc]
      exact hs
  · cases acquire <;> exact hs

/-- Witness for size_config_invariant at a concrete state and inputs. -/
theorem size_config_invariant_witness :
    sizeMatchesConfig sampleState ∧
    ((∀ st tr, State.new ⟨800, 600⟩ [7] 0 0 0 = some (st, tr) →
       sizeMatchesConfig st) ∧
     sizeMatchesConfig (sampleState.resize ⟨1024, 768⟩).1 ∧
     sizeMatchesConfig (sampleState.input .CloseRequested).1 ∧
     sizeMatchesConfig sampleState.update ∧
     sizeMatchesConfig (sampleState.render (.ok ())).1) :=
  ⟨⟨rfl, rfl⟩,
   size_config_invariant sampleState ⟨rfl, rfl⟩ ⟨1024, 768⟩ .CloseRequested (.ok ())
     ⟨800, 600⟩ [7] 0 0 0⟩

end LearnWgpu
